import Mathlib

/-!
Shallow embedding of the impact aggregation pipeline of `src/app.py`
(grid-expansion-impacts-app).

The pipeline, as written in the source, is:
  1. subtype enrichment: `df["component_subtype"].fillna("unspecified")` when the
     column exists, otherwise the whole column is set to `"unspecified"`
     (app.py lines 108-111);
  2. impact computation: `df["CO2"] = unit_count * co2_factors.get((type, subtype), 0)`
     (lines 116-120) and the component label
     `(subtype + " " + type).str.strip()` (lines 121-122);
  3. group filter by `component_type` unless the selection is `"All"` (lines 151-153);
  4. `groupby(["year", "component"]).sum` / `pivot(...).fillna(0)` / optional
     `cumsum` / `melt` (lines 154-162).

Tables are lists of records; a pandas NaN cell is `Option.none`; numbers are `ℚ`
(the source uses binary floating point, whose rounding is not modelled; every claim
under study is about the algebraic structure of the computation, not rounding).
Column absence (for the error-handling claims) is modelled by explicit Boolean
shape flags on the input table, and the `KeyError` a missing column raises in the
source is modelled by `Except.error`.
-/

/-- One raw input row of the expansion plan table. The `component_subtype` cell is
`none` when it is missing (NaN in pandas, e.g. an empty CSV field). -/
structure RawRow where
  year : Int
  component_type : String
  component_subtype : Option String
  unit_count : ℚ
deriving Repr, DecidableEq

/-- The input table together with its shape: which of the columns used by the
calculation are actually present. When a column is absent the corresponding
per-row field values are never consulted. -/
structure InputTable where
  hasComponentType : Bool
  hasUnitCount : Bool
  hasSubtypeCol : Bool
  rows : List RawRow
deriving Repr, DecidableEq

/-- One row of the calculated table (`st.session_state.calculated_df`): the raw
row enriched with the filled subtype, the stripped component label and the
computed CO2 value. -/
structure ImpactRow where
  year : Int
  component_type : String
  component_subtype : String
  unit_count : ℚ
  component : String
  CO2 : ℚ
deriving Repr, DecidableEq

/-- One row of the long-form output table `df_long` handed to the chart. -/
structure LongRow where
  year : Int
  component : String
  CO2 : ℚ
deriving Repr, DecidableEq

/-- The fixed factor table `co2_factors` of app.py lines 101-107, keyed by the
pair (component_type, component_subtype). -/
def co2_factors : List ((String × String) × ℚ) :=
  [ (("cable", "underground"), 3.12),
    (("cable", "overhead"), 2.08),
    (("transformer", "step-up"), 2.5),
    (("transformer", "step-down"), 1.5),
    (("substation", "unspecified"), 5) ]

/-- Python `co2_factors.get(key, 0)`: exact lookup with default 0 (app.py line 118). -/
def co2FactorsGet (k : String × String) : ℚ :=
  (co2_factors.lookup k).getD 0

/-- Subtype enrichment of app.py lines 108-111: if the `component_subtype` column
exists, `fillna("unspecified")` replaces only a missing (NaN) cell; if the column
does not exist, every row gets `"unspecified"`. -/
def enrichSubtype (hasSubtypeCol : Bool) (r : RawRow) : String :=
  if hasSubtypeCol then r.component_subtype.getD "unspecified" else "unspecified"

/-- Python `str.strip()`: drop whitespace from both ends of the string. -/
def pyStrip (s : String) : String :=
  String.mk (((s.toList.dropWhile Char.isWhitespace).reverse.dropWhile
    Char.isWhitespace).reverse)

/-- One row of the calculated table: app.py lines 116-122. The CO2 value is
`unit_count * co2_factors.get((component_type, component_subtype), 0)` and the
component label is `(component_subtype + " " + component_type).strip()`. -/
def computeRow (hasSubtypeCol : Bool) (r : RawRow) : ImpactRow :=
  let st := enrichSubtype hasSubtypeCol r
  { year := r.year
    component_type := r.component_type
    component_subtype := st
    unit_count := r.unit_count
    component := pyStrip (st ++ " " ++ r.component_type)
    CO2 := r.unit_count * co2FactorsGet (r.component_type, st) }

/-- The calculated table for a well-shaped input: the row map of app.py
lines 116-122. -/
def calcRows (hasSubtypeCol : Bool) (rows : List RawRow) : List ImpactRow :=
  rows.map (computeRow hasSubtypeCol)

/-- The whole calculation including the shape contract. Accessing a column that
is absent from a pandas frame raises `KeyError`; `component_type` is consulted
first (app.py line 113), then `unit_count` inside the apply lambda (line 117).
The embedding returns the error instead of raising. -/
def calculate (t : InputTable) : Except String (List ImpactRow) :=
  if t.hasComponentType = false then Except.error "KeyError: component_type"
  else if t.hasUnitCount = false then Except.error "KeyError: unit_count"
  else Except.ok (calcRows t.hasSubtypeCol t.rows)

/-- The group filter of app.py lines 151-153: keep everything when the selection
is the "All" sentinel, otherwise keep exactly the rows of the selected
`component_type`. -/
def groupFilter (selected_group : String) (rows : List ImpactRow) : List ImpactRow :=
  if selected_group = "All" then rows
  else rows.filter (fun r => r.component_type == selected_group)

/-- Lexicographic comparison of char lists, the order Python uses on strings. -/
def charListLe : List Char → List Char → Bool
  | [], _ => true
  | _ :: _, [] => false
  | a :: as, b :: bs => if a < b then true else if b < a then false else charListLe as bs

/-- Lexicographic comparison of strings by code points (Python `str` order,
the sort order pandas applies to the pivot columns). -/
def strLe (a b : String) : Bool :=
  charListLe a.toList b.toList

/-- The distinct years present in the table, in ascending order: the row index
of `df_pivot` (pandas `groupby` sorts its keys ascending). -/
def sortedYears (rows : List ImpactRow) : List Int :=
  List.insertionSort (fun a b => a ≤ b) ((rows.map (fun r => r.year)).dedup)

/-- The distinct component labels present in the table, sorted: the columns of
`df_pivot`. -/
def sortedComponents (rows : List ImpactRow) : List String :=
  List.insertionSort (fun a b => strLe a b = true)
    ((rows.map (fun r => r.component)).dedup)

/-- The content of one pivot cell: the sum of the CO2 values of the rows with
the given year and component label. A (year, component) pair to which no row
contributes sums over the empty list, which is the `fillna(0)` of app.py
line 155. -/
def sumCO2 (rows : List ImpactRow) (y : Int) (c : String) : ℚ :=
  ((rows.filter (fun r => r.year == y && r.component == c)).map (fun r => r.CO2)).sum

/-- One column of `df_pivot`: the cell values of component `c` down the year
index `ys`. -/
def pivotColumn (rows : List ImpactRow) (ys : List Int) (c : String) : List ℚ :=
  ys.map (fun y => sumCO2 rows y c)

/-- Running total of a list, position by position: pandas `cumsum` down one
column. -/
def cumsum : List ℚ → List ℚ
  | [] => []
  | x :: xs => x :: (cumsum xs).map (fun v => x + v)

/-- The optional cumulative transform of app.py lines 158-159. -/
def applyCum (cumulative : Bool) (col : List ℚ) : List ℚ :=
  if cumulative then cumsum col else col

/-- The long-form output `df_long` of app.py lines 160-162: `melt` lists, for
each pivot column in order, every year of the index with that cell value. -/
def dfLong (cumulative : Bool) (rows : List ImpactRow) : List LongRow :=
  let ys := sortedYears rows
  (sortedComponents rows).flatMap (fun c =>
    List.zipWith (fun y v => ⟨y, c, v⟩) ys (applyCum cumulative (pivotColumn rows ys c)))

/-- One full run of the computation as the script performs it: the widget values
`impact_category` (app.py lines 89-92) and `scenario` (lines 94-97) are in scope
but the computation of `calculated_df` and `df_long` never reads them (they only
feed the axis title of the chart). -/
def runPipeline (impact_category scenario : String) (t : InputTable)
    (selected_group : String) (cumulative : Bool) :
    Except String (List ImpactRow × List LongRow) :=
  (calculate t).map (fun irs => (irs, dfLong cumulative (groupFilter selected_group irs)))

/-! Helper lemmas about the pipeline pieces. -/

theorem cumsum_length (l : List ℚ) : (cumsum l).length = l.length := by
  induction l with
  | nil => rfl
  | cons x xs ih => simp [cumsum, ih]

theorem applyCum_length (b : Bool) (col : List ℚ) : (applyCum b col).length = col.length := by
  cases b <;> simp [applyCum, cumsum_length]

theorem pivotColumn_length (rows : List ImpactRow) (ys : List Int) (c : String) :
    (pivotColumn rows ys c).length = ys.length := by
  simp [pivotColumn]

theorem cumsum_getD (l : List ℚ) (n : Nat) (hn : n < l.length) :
    (cumsum l).getD n 0 = (l.take (n + 1)).sum := by
  induction l generalizing n with
  | nil => simp at hn
  | cons x xs ih =>
    cases n with
    | zero => simp [cumsum]
    | succ n =>
      have hn2 : n < xs.length := by simpa using hn
      have hn3 : n < ((cumsum xs).map (fun v => x + v)).length := by
        simpa [cumsum_length] using hn2
      have hn4 : n < (cumsum xs).length := by simpa [cumsum_length] using hn2
      calc (cumsum (x :: xs)).getD (n + 1) 0
          = ((cumsum xs).map (fun v => x + v)).getD n 0 := by simp [cumsum]
        _ = ((cumsum xs).map (fun v => x + v)).get ⟨n, hn3⟩ := List.getD_eq_get _ _ hn3
        _ = x + (cumsum xs).get ⟨n, hn4⟩ := by simp
        _ = x + (cumsum xs).getD n 0 := by rw [List.getD_eq_get _ _ hn4]
        _ = x + (xs.take (n + 1)).sum := by rw [ih n hn2]
        _ = ((x :: xs).take (n + 1 + 1)).sum := by simp

theorem sum_take_mono (l : List ℚ) (hpos : ∀ x ∈ l, 0 ≤ x) (n m : Nat) (hnm : n ≤ m) :
    (l.take n).sum ≤ (l.take m).sum := by
  have hsplit : l.take m = (l.take m).take n ++ (l.take m).drop n :=
    (List.take_append_drop n (l.take m)).symm
  have htt : (l.take m).take n = l.take n := by
    rw [List.take_take, Nat.min_eq_left hnm]
  have hdropnn : 0 ≤ ((l.take m).drop n).sum := by
    refine List.sum_nonneg fun x hx => ?_
    exact hpos x (List.mem_of_mem_take (List.mem_of_mem_drop hx))
  calc (l.take n).sum = (l.take n).sum + 0 := by ring
    _ ≤ (l.take n).sum + ((l.take m).drop n).sum := by
        exact add_le_add_left hdropnn _
    _ = ((l.take m).take n ++ (l.take m).drop n).sum := by rw [htt, List.sum_append]
    _ = (l.take m).sum := by rw [← hsplit]

theorem sumCO2_nonneg (rows : List ImpactRow) (hpos : ∀ r ∈ rows, 0 ≤ r.CO2)
    (y : Int) (c : String) : 0 ≤ sumCO2 rows y c := by
  refine List.sum_nonneg fun x hx => ?_
  obtain ⟨r, hr, rfl⟩ := List.mem_map.mp hx
  exact hpos r (List.mem_of_mem_filter hr)

theorem pivotColumn_nonneg (rows : List ImpactRow) (hpos : ∀ r ∈ rows, 0 ≤ r.CO2)
    (ys : List Int) (c : String) : ∀ v ∈ pivotColumn rows ys c, 0 ≤ v := by
  intro v hv
  obtain ⟨y, _, rfl⟩ := List.mem_map.mp hv
  exact sumCO2_nonneg rows hpos y c

theorem mem_sortedYears (rows : List ImpactRow) (y : Int) :
    y ∈ sortedYears rows ↔ ∃ r ∈ rows, r.year = y := by
  rw [sortedYears, (List.perm_insertionSort _ _).mem_iff, List.mem_dedup, List.mem_map]

theorem mem_sortedComponents (rows : List ImpactRow) (c : String) :
    c ∈ sortedComponents rows ↔ ∃ r ∈ rows, r.component = c := by
  rw [sortedComponents, (List.perm_insertionSort _ _).mem_iff, List.mem_dedup, List.mem_map]

theorem nodup_sortedYears (rows : List ImpactRow) : (sortedYears rows).Nodup :=
  ((List.perm_insertionSort _ _).nodup_iff).mpr (List.nodup_dedup _)

theorem nodup_sortedComponents (rows : List ImpactRow) : (sortedComponents rows).Nodup :=
  ((List.perm_insertionSort _ _).nodup_iff).mpr (List.nodup_dedup _)

theorem sorted_sortedYears (rows : List ImpactRow) :
    (sortedYears rows).Sorted (fun a b => a ≤ b) :=
  List.sorted_insertionSort _ _

theorem pyStrip_ne_empty (s : String) (h : ∃ ch ∈ s.toList, ch.isWhitespace = false) :
    pyStrip s ≠ "" := by
  obtain ⟨ch, hmem, hws⟩ := h
  intro hcontra
  have hl : ((s.toList.dropWhile Char.isWhitespace).reverse.dropWhile
      Char.isWhitespace).reverse = [] := by
    simpa [pyStrip] using congrArg String.toList hcontra
  rw [List.reverse_eq_nil_iff, List.dropWhile_eq_nil_iff] at hl
  have hd : ch ∈ s.toList.dropWhile Char.isWhitespace := by
    rcases List.mem_append.mp
        ((List.takeWhile_append_dropWhile (p := Char.isWhitespace) (l := s.toList)) ▸ hmem) with
      hta | hdr
    · exact absurd (List.mem_takeWhile_imp hta) (by simp [hws])
    · exact hdr
  have := hl ch (List.mem_reverse.mpr hd)
  simp [hws] at this

/-! Claim theorems. -/

/-- Claim C1: for every input row the computed CO2 value is the row's unit count
times the factor obtained by exact lookup of the (component_type,
component_subtype) pair in the fixed factor table with default 0; in particular
a pair absent from the table gives CO2 = 0 whatever the unit count, and the
lookup is total (it never fails). -/
theorem c1_co2_is_count_times_factor (flag : Bool) (r : RawRow) :
    (computeRow flag r).CO2
      = (computeRow flag r).unit_count
        * co2FactorsGet ((computeRow flag r).component_type,
            (computeRow flag r).component_subtype)
    ∧ (co2_factors.lookup ((computeRow flag r).component_type,
          (computeRow flag r).component_subtype) = none →
        (computeRow flag r).CO2 = 0) := by
  constructor
  · rfl
  · intro h
    show r.unit_count * co2FactorsGet (r.component_type, enrichSubtype flag r) = 0
    rw [co2FactorsGet]
    rw [show co2_factors.lookup (r.component_type, enrichSubtype flag r) = none from h]
    simp

/-- Witness for C1 at a concrete unknown pair: the row (2020, wire, x, 5) has no
entry in the factor table and its computed CO2 is 0. -/
theorem c1_co2_is_count_times_factor_witness :
    co2_factors.lookup ("wire", "x") = none
    ∧ (computeRow true ⟨2020, "wire", some "x", 5⟩).CO2 = 0 :=
  ⟨by decide, (c1_co2_is_count_times_factor true ⟨2020, "wire", some "x", 5⟩).2 (by decide)⟩

/-- Counterexample to claim C4 as stated: a present but empty-string
component_subtype cell is not replaced by the sentinel, because pandas `fillna`
only replaces missing (NaN) cells; after enrichment the subtype of this row is
the empty string, which is semantically empty and differs from "unspecified". -/
theorem c4_counterexample_empty_string_kept :
    (computeRow true ⟨2020, "substation", some "", 23⟩).component_subtype = ""
    ∧ (computeRow true ⟨2020, "substation", some "", 23⟩).component_subtype
        ≠ "unspecified" := by
  constructor
  · rfl
  · decide

/-- Claim C4 (amended): after enrichment, if the component_subtype column is
absent every row gets the sentinel "unspecified"; if the column is present a
missing (NaN) value is replaced by the sentinel, while a present value — even
the empty string — is kept as is. -/
theorem c4_subtype_enrichment (r : RawRow) :
    (computeRow false r).component_subtype = "unspecified"
    ∧ (r.component_subtype = none →
        (computeRow true r).component_subtype = "unspecified")
    ∧ (∀ s : String, r.component_subtype = some s →
        (computeRow true r).component_subtype = s) := by
  refine ⟨rfl, fun h => ?_, fun s h => ?_⟩ <;> simp [computeRow, enrichSubtype, h]

/-- Witness for C4 (amended): a row with a missing subtype gets the sentinel in
both the column-absent and the column-present case. -/
theorem c4_subtype_enrichment_witness :
    (computeRow false ⟨2020, "substation", none, 23⟩).component_subtype = "unspecified"
    ∧ (computeRow true ⟨2020, "substation", none, 23⟩).component_subtype = "unspecified" :=
  ⟨(c4_subtype_enrichment ⟨2020, "substation", none, 23⟩).1,
   (c4_subtype_enrichment ⟨2020, "substation", none, 23⟩).2.1 rfl⟩

/-- Counterexample to claim C5 as stated: a row whose component_subtype is a
present empty string and whose component_type is the empty string gets the empty
component label, so the label is not always non-empty. -/
theorem c5_counterexample_empty_label :
    (computeRow true ⟨2020, "", some "", 1⟩).component = "" := by decide

/-- Claim C5 (amended): for every row of the calculated table the component
label is the trimmed concatenation of component_subtype, one space and
component_type (subtype first); two rows with identical enriched
(component_subtype, component_type) pairs carry the identical label; and the
label is non-empty provided the concatenation contains at least one
non-whitespace character (which fails only when both fields are
whitespace-only, as in the counterexample). -/
theorem c5_component_label (flag : Bool) (r : RawRow) :
    (computeRow flag r).component
      = pyStrip ((computeRow flag r).component_subtype ++ " "
          ++ (computeRow flag r).component_type)
    ∧ (∀ (flag2 : Bool) (r2 : RawRow),
        (computeRow flag r).component_subtype = (computeRow flag2 r2).component_subtype →
        (computeRow flag r).component_type = (computeRow flag2 r2).component_type →
        (computeRow flag r).component = (computeRow flag2 r2).component)
    ∧ ((∃ ch ∈ ((computeRow flag r).component_subtype ++ " "
          ++ (computeRow flag r).component_type).toList, ch.isWhitespace = false) →
        (computeRow flag r).component ≠ "") := by
  refine ⟨rfl, fun flag2 r2 hs ht => ?_, fun h => ?_⟩
  · show pyStrip (enrichSubtype flag r ++ " " ++ r.component_type) = _
    rw [show enrichSubtype flag r = enrichSubtype flag2 r2 from hs,
      show r.component_type = r2.component_type from ht]
    rfl
  · exact pyStrip_ne_empty _ h

/-- Witness for C5 (amended) at the spec's own scenario row: (2020, substation,
missing subtype, 23) gets the non-empty label "unspecified substation". -/
theorem c5_component_label_witness :
    (computeRow true ⟨2020, "substation", none, 23⟩).component = "unspecified substation"
    ∧ (computeRow true ⟨2020, "substation", none, 23⟩).component ≠ "" :=
  ⟨by decide, (c5_component_label true ⟨2020, "substation", none, 23⟩).2.2 (by decide)⟩

/-- Claim C6: with the "All" sentinel selected the group filter keeps every row
of the calculated table unchanged; with a specific component_type selected it
keeps exactly the rows of that type and no row of another type survives. -/
theorem c6_group_filter (rows : List ImpactRow) (sel : String) (hsel : sel ≠ "All") :
    groupFilter "All" rows = rows
    ∧ (∀ r : ImpactRow, r ∈ groupFilter sel rows ↔ r ∈ rows ∧ r.component_type = sel) := by
  constructor
  · simp [groupFilter]
  · intro r
    rw [groupFilter, if_neg hsel, List.mem_filter]
    simp

/-- Witness for C6 at a concrete table: filtering two rows (one cable, one
transformer) by "cable" keeps the cable row. -/
theorem c6_group_filter_witness :
    (⟨2020, "cable", "underground", 10, "underground cable", 31.2⟩ : ImpactRow) ∈
      groupFilter "cable"
        [⟨2020, "cable", "underground", 10, "underground cable", 31.2⟩,
         ⟨2020, "transformer", "step-up", 3, "step-up transformer", 7.5⟩] :=
  ((c6_group_filter
      [⟨2020, "cable", "underground", 10, "underground cable", 31.2⟩,
       ⟨2020, "transformer", "step-up", 3, "step-up transformer", 7.5⟩]
      "cable" (by decide)).2
    ⟨2020, "cable", "underground", 10, "underground cable", 31.2⟩).mpr
    ⟨List.mem_cons_self _ _, rfl⟩

/-- Claim C7: an input table lacking the component_type column or the unit_count
column makes the calculation fail with a data-shape error (the KeyError of the
column access); no impact output is produced, and whether the failure occurs is
a deterministic function of the table's shape alone — any table with the same
column-presence shape fails too. -/
theorem c7_missing_columns_fail (t : InputTable)
    (h : t.hasComponentType = false ∨ t.hasUnitCount = false) :
    (∃ e, calculate t = Except.error e)
    ∧ (∀ out, calculate t ≠ Except.ok out)
    ∧ (∀ t2 : InputTable, t2.hasComponentType = t.hasComponentType →
        t2.hasUnitCount = t.hasUnitCount → ∃ e, calculate t2 = Except.error e) := by
  have key : ∀ u : InputTable, u.hasComponentType = false ∨ u.hasUnitCount = false →
      ∃ e, calculate u = Except.error e := by
    intro u hu
    by_cases hc : u.hasComponentType = false
    · exact ⟨"KeyError: component_type", by simp [calculate, hc]⟩
    · exact ⟨"KeyError: unit_count", by simp [calculate, hc, hu.resolve_left hc]⟩
  obtain ⟨e, he⟩ := key t h
  refine ⟨⟨e, he⟩, fun out hout => ?_, fun t2 h1 h2 => key t2 (by rw [h1, h2]; exact h)⟩
  rw [hout] at he
  cases he

/-- Witness for C7: the empty table without a component_type column fails. -/
theorem c7_missing_columns_fail_witness :
    ∃ e, calculate ⟨false, true, true, []⟩ = Except.error e :=
  (c7_missing_columns_fail ⟨false, true, true, []⟩ (Or.inl rfl)).1

/-- Claim C8: if a specific group is selected and no row of the calculated table
has that component_type, the whole aggregation and reshaping stage still runs
(it is a total function in the embedding) and its long-form output is the empty
table, for either value of the cumulative flag. -/
theorem c8_empty_filter_empty_output (rows : List ImpactRow) (sel : String) (b : Bool)
    (hsel : sel ≠ "All") (hnone : ∀ r ∈ rows, r.component_type ≠ sel) :
    dfLong b (groupFilter sel rows) = [] := by
  have h0 : groupFilter sel rows = [] := by
    rw [groupFilter, if_neg hsel, List.filter_eq_nil_iff]
    intro r hr
    simp [hnone r hr]
  rw [h0]
  rfl

/-- Witness for C8: filtering a one-row transformer table by "cable" and
aggregating cumulatively yields the empty long-form table. -/
theorem c8_empty_filter_empty_output_witness :
    dfLong true (groupFilter "cable"
      [⟨2020, "transformer", "step-up", 3, "step-up transformer", 7.5⟩]) = [] :=
  c8_empty_filter_empty_output
    [⟨2020, "transformer", "step-up", 3, "step-up transformer", 7.5⟩]
    "cable" true (by decide) (by decide)

/-- Claim C9: two runs of the pipeline on the same input table, group selection
and cumulative flag that differ only in the Impact Category and/or Climate
Scenario selector values produce identical calculated tables and identical
long-form outputs: the computation never reads the selectors. -/
theorem c9_selectors_unused (ic1 ic2 sc1 sc2 : String) (t : InputTable)
    (sel : String) (b : Bool) :
    runPipeline ic1 sc1 t sel b = runPipeline ic2 sc2 t sel b := rfl

theorem length_flatMap_const {α β : Type} (l : List α) (f : α → List β) (k : Nat)
    (h : ∀ a ∈ l, (f a).length = k) : (l.flatMap f).length = l.length * k := by
  induction l with
  | nil => simp
  | cons x xs ih =>
    simp only [List.flatMap_cons, List.length_append, List.length_cons]
    rw [h x (List.mem_cons_self x xs), ih (fun a ha => h a (List.mem_cons_of_mem x ha))]
    ring

theorem applyCum_false_pivot (rows : List ImpactRow) (c : String) :
    List.zipWith (fun y v => (⟨y, c, v⟩ : LongRow)) (sortedYears rows)
      (applyCum false (pivotColumn rows (sortedYears rows) c))
    = (sortedYears rows).map (fun y => ⟨y, c, sumCO2 rows y c⟩) := by
  simp [applyCum, pivotColumn, List.zipWith_map_right, List.zipWith_same]

theorem exists_mem_zipWith {α β γ : Type} (f : α → β → γ) :
    ∀ (l1 : List α) (l2 : List β), l1.length = l2.length →
      ∀ a ∈ l1, ∃ b, f a b ∈ List.zipWith f l1 l2 := by
  intro l1
  induction l1 with
  | nil => simp
  | cons x xs ih =>
    intro l2 hlen a ha
    cases l2 with
    | nil => simp at hlen
    | cons z zs =>
      rcases List.mem_cons.mp ha with rfl | ha2
      · exact ⟨z, List.mem_cons_self _ _⟩
      · obtain ⟨b, hb⟩ := ih zs (by simpa using hlen) a ha2
        exact ⟨b, List.mem_cons_of_mem _ hb⟩

/-- Claim C2: the long-form output of the aggregation stage is dense. Its row
count is exactly (number of distinct years present) times (number of distinct
component labels present) for either cumulative flag; every (year, component)
combination of the present years and components appears as a row carrying the
pivot cell value; a combination to which no input row contributes carries the
cell value 0 rather than being absent; and the year and component axes are
exactly the values present in the (filtered) table. -/
theorem c2_dense_long_form (rows : List ImpactRow) (b : Bool) (y : Int) (c : String)
    (hy : y ∈ sortedYears rows) (hc : c ∈ sortedComponents rows) :
    (dfLong b rows).length = (sortedYears rows).length * (sortedComponents rows).length
    ∧ (⟨y, c, sumCO2 rows y c⟩ : LongRow) ∈ dfLong false rows
    ∧ (∀ b2 : Bool, ∃ v : ℚ, (⟨y, c, v⟩ : LongRow) ∈ dfLong b2 rows)
    ∧ ((∀ r ∈ rows, ¬(r.year = y ∧ r.component = c)) → sumCO2 rows y c = 0)
    ∧ (∀ y2 : Int, y2 ∈ sortedYears rows ↔ ∃ r ∈ rows, r.year = y2)
    ∧ (∀ c2 : String, c2 ∈ sortedComponents rows ↔ ∃ r ∈ rows, r.component = c2) := by
  refine ⟨?_, ?_, ?_, ?_, fun y2 => mem_sortedYears rows y2,
    fun c2 => mem_sortedComponents rows c2⟩
  · show ((sortedComponents rows).flatMap _).length = _
    rw [length_flatMap_const _ _ (sortedYears rows).length ?hconst, Nat.mul_comm]
    case hconst =>
      intro c2 _
      simp [List.length_zipWith, applyCum_length, pivotColumn_length]
  · show _ ∈ (sortedComponents rows).flatMap _
    refine List.mem_flatMap.mpr ⟨c, hc, ?_⟩
    rw [applyCum_false_pivot rows c]
    exact List.mem_map.mpr ⟨y, hy, rfl⟩
  · intro b2
    have hlen : (sortedYears rows).length
        = (applyCum b2 (pivotColumn rows (sortedYears rows) c)).length := by
      rw [applyCum_length, pivotColumn_length]
    obtain ⟨v, hv⟩ := exists_mem_zipWith (fun y2 v => (⟨y2, c, v⟩ : LongRow))
      (sortedYears rows) (applyCum b2 (pivotColumn rows (sortedYears rows) c)) hlen y hy
    exact ⟨v, List.mem_flatMap.mpr ⟨c, hc, hv⟩⟩
  · intro h
    have hfil : rows.filter (fun r => r.year == y && r.component == c) = [] := by
      rw [List.filter_eq_nil_iff]
      intro r hr
      simpa using h r hr
    rw [sumCO2, hfil]
    rfl

/-- Witness for C2 at a concrete three-row table covering years 2020 and 2025
and components "underground cable" and "overhead cable": the combination
(2025, "overhead cable") has no contributing row yet appears with cell value 0,
and the output has 2 x 2 rows. -/
theorem c2_dense_long_form_witness :
    (dfLong false [computeRow true ⟨2020, "cable", some "underground", 65⟩,
        computeRow true ⟨2020, "cable", some "overhead", 50⟩,
        computeRow true ⟨2025, "cable", some "underground", 35⟩]).length
      = (sortedYears [computeRow true ⟨2020, "cable", some "underground", 65⟩,
          computeRow true ⟨2020, "cable", some "overhead", 50⟩,
          computeRow true ⟨2025, "cable", some "underground", 35⟩]).length
        * (sortedComponents [computeRow true ⟨2020, "cable", some "underground", 65⟩,
            computeRow true ⟨2020, "cable", some "overhead", 50⟩,
            computeRow true ⟨2025, "cable", some "underground", 35⟩]).length
    ∧ (⟨2025, "overhead cable",
        sumCO2 [computeRow true ⟨2020, "cable", some "underground", 65⟩,
          computeRow true ⟨2020, "cable", some "overhead", 50⟩,
          computeRow true ⟨2025, "cable", some "underground", 35⟩] 2025 "overhead cable"⟩
        : LongRow) ∈
        dfLong false [computeRow true ⟨2020, "cable", some "underground", 65⟩,
          computeRow true ⟨2020, "cable", some "overhead", 50⟩,
          computeRow true ⟨2025, "cable", some "underground", 35⟩]
    ∧ sumCO2 [computeRow true ⟨2020, "cable", some "underground", 65⟩,
        computeRow true ⟨2020, "cable", some "overhead", 50⟩,
        computeRow true ⟨2025, "cable", some "underground", 35⟩] 2025 "overhead cable" = 0 :=
  ⟨(c2_dense_long_form _ false 2025 "overhead cable" (by decide) (by decide)).1,
   (c2_dense_long_form _ false 2025 "overhead cable" (by decide) (by decide)).2.1,
   (c2_dense_long_form _ false 2025 "overhead cable" (by decide) (by decide)).2.2.2.1
     (by decide)⟩

/-- Claim C3: with the cumulative flag set, the value of a component column at
position n of the year index (the n-th ascending year present, since the index
is sorted and duplicate-free) equals the sum of the column's non-cumulative
cell values at positions 0 through n; and when every per-row CO2 value is
non-negative the cumulative column is non-decreasing along positions. -/
theorem c3_cumulative_column (rows : List ImpactRow) (c : String) (n m : Nat)
    (hm : m < (sortedYears rows).length) (hnm : n ≤ m) :
    (applyCum true (pivotColumn rows (sortedYears rows) c)).getD n 0
      = ((pivotColumn rows (sortedYears rows) c).take (n + 1)).sum
    ∧ ((∀ r ∈ rows, 0 ≤ r.CO2) →
        (applyCum true (pivotColumn rows (sortedYears rows) c)).getD n 0
          ≤ (applyCum true (pivotColumn rows (sortedYears rows) c)).getD m 0)
    ∧ (sortedYears rows).Sorted (fun a b => a ≤ b)
    ∧ (sortedYears rows).Nodup := by
  have hn : n < (sortedYears rows).length := lt_of_le_of_lt hnm hm
  have hlen : (pivotColumn rows (sortedYears rows) c).length = (sortedYears rows).length :=
    pivotColumn_length rows (sortedYears rows) c
  have happ : applyCum true (pivotColumn rows (sortedYears rows) c)
      = cumsum (pivotColumn rows (sortedYears rows) c) := by
    simp [applyCum]
  refine ⟨?_, fun hpos => ?_, sorted_sortedYears rows, nodup_sortedYears rows⟩
  · rw [happ, cumsum_getD _ n (hlen ▸ hn)]
  · rw [happ, cumsum_getD _ n (hlen ▸ hn), cumsum_getD _ m (hlen ▸ hm)]
    exact sum_take_mono _ (pivotColumn_nonneg rows hpos _ c) _ _ (Nat.succ_le_succ hnm)

/-- Witness for C3 at the spec's cumulative scenario: rows (2020, cable,
underground, 10) and (2025, cable, underground, 5), component column
"underground cable", positions 0 and 1. -/
theorem c3_cumulative_column_witness :
    (applyCum true (pivotColumn
        [computeRow true ⟨2020, "cable", some "underground", 10⟩,
         computeRow true ⟨2025, "cable", some "underground", 5⟩]
        (sortedYears [computeRow true ⟨2020, "cable", some "underground", 10⟩,
          computeRow true ⟨2025, "cable", some "underground", 5⟩])
        "underground cable")).getD 0 0
      = ((pivotColumn
          [computeRow true ⟨2020, "cable", some "underground", 10⟩,
           computeRow true ⟨2025, "cable", some "underground", 5⟩]
          (sortedYears [computeRow true ⟨2020, "cable", some "underground", 10⟩,
            computeRow true ⟨2025, "cable", some "underground", 5⟩])
          "underground cable").take 1).sum
    ∧ (applyCum true (pivotColumn
        [computeRow true ⟨2020, "cable", some "underground", 10⟩,
         computeRow true ⟨2025, "cable", some "underground", 5⟩]
        (sortedYears [computeRow true ⟨2020, "cable", some "underground", 10⟩,
          computeRow true ⟨2025, "cable", some "underground", 5⟩])
        "underground cable")).getD 0 0
      ≤ (applyCum true (pivotColumn
          [computeRow true ⟨2020, "cable", some "underground", 10⟩,
           computeRow true ⟨2025, "cable", some "underground", 5⟩]
          (sortedYears [computeRow true ⟨2020, "cable", some "underground", 10⟩,
            computeRow true ⟨2025, "cable", some "underground", 5⟩])
          "underground cable")).getD 1 0 :=
  ⟨(c3_cumulative_column
      [computeRow true ⟨2020, "cable", some "underground", 10⟩,
       computeRow true ⟨2025, "cable", some "underground", 5⟩]
      "underground cable" 0 1 (by decide) (by decide)).1,
   (c3_cumulative_column
      [computeRow true ⟨2020, "cable", some "underground", 10⟩,
       computeRow true ⟨2025, "cable", some "underground", 5⟩]
      "underground cable" 0 1 (by decide) (by decide)).2.1
     (by
        intro r hr
        simp only [List.mem_cons, List.not_mem_nil, or_false] at hr
        rcases hr with rfl | rfl
        · rw [show (computeRow true ⟨2020, "cable", some "underground", 10⟩).CO2
              = 10 * (3.12 : ℚ) from rfl]
          norm_num
        · rw [show (computeRow true ⟨2025, "cable", some "underground", 5⟩).CO2
              = 5 * (3.12 : ℚ) from rfl]
          norm_num)⟩

/-- Claim C10: the space-joined component label is not injective on the enriched
(component_subtype, component_type) pairs. The rows (2020, cable, underground,
10) and (2020, type "", subtype "underground cable", 7) have distinct pairs and
distinct factor-lookup keys, yet both get the label "underground cable", and
aggregation merges them into the single cell (2020, "underground cable") whose
value 31.2 is the sum of both rows' CO2 values. -/
theorem c10_label_collision_merges_cells :
    ((computeRow true ⟨2020, "cable", some "underground", 10⟩).component_subtype,
     (computeRow true ⟨2020, "cable", some "underground", 10⟩).component_type)
      ≠ ((computeRow true ⟨2020, "", some "underground cable", 7⟩).component_subtype,
         (computeRow true ⟨2020, "", some "underground cable", 7⟩).component_type)
    ∧ (computeRow true ⟨2020, "cable", some "underground", 10⟩).component
        = (computeRow true ⟨2020, "", some "underground cable", 7⟩).component
    ∧ co2_factors.lookup ("cable", "underground") ≠ co2_factors.lookup ("", "underground cable")
    ∧ dfLong false [computeRow true ⟨2020, "cable", some "underground", 10⟩,
        computeRow true ⟨2020, "", some "underground cable", 7⟩]
        = [⟨2020, "underground cable", 31.2⟩] := by
  refine ⟨by decide, by decide, by decide, ?_⟩
  have h2 : dfLong false [computeRow true ⟨2020, "cable", some "underground", 10⟩,
      computeRow true ⟨2020, "", some "underground cable", 7⟩]
      = [⟨2020, "underground cable",
          sumCO2 [computeRow true ⟨2020, "cable", some "underground", 10⟩,
            computeRow true ⟨2020, "", some "underground cable", 7⟩]
            2020 "underground cable"⟩] := rfl
  have h1 : sumCO2 [computeRow true ⟨2020, "cable", some "underground", 10⟩,
      computeRow true ⟨2020, "", some "underground cable", 7⟩]
      2020 "underground cable" = 10 * (3.12 : ℚ) + (7 * 0 + 0) := rfl
  rw [h2, h1]
  norm_num
